import Mathlib

/-!
Shallow embedding of `gdap.py` (geocode districts for active participants).

The script enriches a table of records with geocoded coordinates and
district/census/political fields, calling one geocoding service and four
district-lookup services.  The embedding models:

  * spreadsheet cell values as `Value` (Python `None`, strings, ints,
    floats-as-rationals), with Python truthiness and `pd.notna`;
  * Python dicts returned by the adapters as association lists, with
    `d.get(k, default)` (`dictGetD`) and `d[k]` raising `KeyError`
    (`pydictGet`);
  * the external services as functions supplied in a `World`
    (deterministic per call input, which suffices for the claims);
  * exceptions as explicit error values threaded through the per-record
    body, and the per-record `try/except` of `process_records` as the
    handler that turns them into a `Processing Error: ...` status;
  * the loop-local Python variable `city` of `process_records`, which is
    assigned only on the geocoding path, as an `Option Value` threaded
    from one iteration to the next (`none` models the unbound local).

Every external call is recorded as a `CallEvent` so that claims about
which adapters are invoked for a record can be stated on the trace.
-/

/-- A spreadsheet / JSON cell value.  `null` models Python `None`; `rat`
models a Python float (no arithmetic is ever performed on coordinates in
the source, they are only passed through, so an exact rational stands in
for the float). -/
inductive Value where
  | null : Value
  | str : String → Value
  | num : Int → Value
  | rat : Rat → Value
  deriving DecidableEq, Repr

/-- Python truthiness of a cell value, as used by `all([address, city, zip_code])`
in `process_records` (line 291): `None` and the empty string are falsy, `0` is falsy. -/
def Value.truthy : Value → Bool
  | .null => false
  | .str s => !s.isEmpty
  | .num n => n != 0
  | .rat q => q != 0

/-- `pd.notna` on a cell value (missing cells loaded as `None` are modelled
as `Value.null`). -/
def notna (v : Value) : Bool := v != Value.null

/-- Python `str(...)` of a cell value, as used by the f-strings of the source. -/
def pyStr : Value → String
  | .null => "None"
  | .str s => s
  | .num n => toString n
  | .rat q => toString q

/-- Python `str.lower()`.  (`String.toLower` of the core library does not
reduce in the kernel, so the same function is spelled out over the
character list.) -/
def pyLower (s : String) : String := ⟨s.data.map Char.toLower⟩

/-- Does `needle` occur at the start of `hay`? (helper for the Python
substring test). -/
def charsTake : List Char → List Char → Bool
  | [], _ => true
  | _ :: _, [] => false
  | a :: as, b :: bs => a == b && charsTake as bs

/-- Does `needle` occur anywhere in `hay`? (helper for the Python substring test). -/
def charsHasSub (needle : List Char) : List Char → Bool
  | [] => needle.isEmpty
  | b :: bs => charsTake needle (b :: bs) || charsHasSub needle bs

/-- Python `needle in hay` on strings (substring containment). -/
def strContains (hay needle : String) : Bool := charsHasSub needle.data hay.data

/-- A Python dict with string keys, as returned by the adapter functions. -/
abbrev Dict := List (String × Value)

/-- Python `d.get(k, default)`. -/
def dictGetD (d : Dict) (k : String) (dflt : Value) : Value :=
  match d.lookup k with
  | some v => v
  | none => dflt

/-- `str(KeyError(k))`: Python renders the missing key in quotes. -/
def keyErrorMsg (k : String) : String := "'" ++ k ++ "'"

/-- Python `d[k]`: raises `KeyError` when the key is absent. -/
def pydictGet (d : Dict) (k : String) : Except String Value :=
  match d.lookup k with
  | some v => .ok v
  | none => .error (keyErrorMsg k)

/-- `str(UnboundLocalError)` for the loop-local `city` of `process_records`,
raised when a record skips geocoding and no earlier record assigned `city`. -/
def unbound_city_msg : String :=
  "cannot access local variable 'city' where it is not associated with a value"

/-- Outcome of one call to the external geocoding service
(`self.geolocator.geocode(full_address, timeout=10)`): a match, no match,
a `GeocoderTimedOut`/`GeocoderServiceError`, or any other exception. -/
inductive GeoAnswer where
  | found : Rat → Rat → String → GeoAnswer
  | notFound : GeoAnswer
  | geocoderErr : String → GeoAnswer
  | otherErr : String → GeoAnswer
  deriving DecidableEq, Repr

/-- The `status` string stored in the dict returned by `geocode_address`
for each service outcome (lines 84-99 of the source). -/
def GeoAnswer.statusStr : GeoAnswer → String
  | .found _ _ _ => "Success"
  | .notFound => "Not Found"
  | .geocoderErr m => "Error: " ++ m
  | .otherErr m => "Unexpected Error: " ++ m

/-- Outcome of one ArcGIS feature query (SF / Marin supervisor districts):
either some exception was raised during the request or response handling,
or a JSON body whose optional `features` entry is a list of features, each
given by its `attributes` dict.  (A body whose features lack the
`attributes` key would raise inside the adapter and is therefore covered
by the `raise` case, which the adapter handles identically.) -/
inductive ArcAnswer where
  | raise : String → ArcAnswer
  | ok : Option (List Dict) → ArcAnswer
  deriving DecidableEq, Repr

/-- The census geocoder `geographies` object: geography-level name to list
of entries.  `ok none` models a body without `result`/`geographies` keys. -/
abbrev Geographies := List (String × List Dict)

/-- Outcome of one census-geocoder query. -/
inductive CensusAnswer where
  | raise : String → CensusAnswer
  | ok : Option Geographies → CensusAnswer
  deriving DecidableEq, Repr

/-- Outcome of one FCC area-API query: `ok none` models a body without a
`results` key, `ok (some rs)` a body whose `results` is the list `rs`. -/
inductive FccAnswer where
  | raise : String → FccAnswer
  | ok : Option (List Dict) → FccAnswer
  deriving DecidableEq, Repr

/-- The external world: one response function per external service, plus
the wall clock used for the `Last_Updated` stamp.  Responses are a
function of the call inputs. -/
structure World where
  geocode : String → GeoAnswer
  sf : Value → Value → ArcAnswer
  marin : Value → Value → ArcAnswer
  census : Value → Value → CensusAnswer
  political : Value → Value → FccAnswer
  now : String

/-- One recorded call to an external service, with the inputs submitted. -/
inductive CallEvent where
  | geocode : String → CallEvent
  | sfDistrict : Value → Value → CallEvent
  | marinDistrict : Value → Value → CallEvent
  | census : Value → Value → CallEvent
  | political : Value → Value → CallEvent
  deriving DecidableEq, Repr

/-- The free-text query submitted to the geocoding service: the f-string
`"{address}, {city}, CA {zip_code}"` of `geocode_address` (line 78). -/
def geocode_query (address city zip_code : Value) : String :=
  pyStr address ++ ", " ++ pyStr city ++ ", CA " ++ pyStr zip_code

/-- The query format as the spec words it: `"{address}, {city} {state} {postal_code}"`
(address, comma, city, space, state, space, postal code — no comma after the
city).  Stated from the spec, for comparison with `geocode_query` above. -/
def spec_geocode_query (address city state postal_code : String) : String :=
  address ++ ", " ++ city ++ " " ++ state ++ " " ++ postal_code

/-- `DistrictLookup.geocode_address` (lines 74-99): build the full address,
submit it to the geocoding service, and return the Python dict the source
returns for each outcome. -/
def geocode_address (svc : String → GeoAnswer) (address city zip_code : Value) : Dict :=
  match svc (geocode_query address city zip_code) with
  | .found la lo ad =>
      [("latitude", Value.rat la), ("longitude", Value.rat lo),
       ("formatted_address", Value.str ad), ("status", Value.str "Success")]
  | .notFound => [("status", Value.str "Not Found")]
  | .geocoderErr m => [("status", Value.str ("Error: " ++ m))]
  | .otherErr m => [("status", Value.str ("Unexpected Error: " ++ m))]

/-- `DistrictLookup.get_sf_supervisorial_district` (lines 101-135): on any
exception return `{district: 'Error'}`; with a nonempty feature list return
`{district: attributes.get('DISTRICT', 'Unknown')}` of the first feature;
otherwise `{district: None}`. -/
def get_sf_supervisorial_district (svc : Value → Value → ArcAnswer) (lat lon : Value) : Dict :=
  match svc lat lon with
  | .raise _ => [("district", Value.str "Error")]
  | .ok (some (f :: _)) => [("district", dictGetD f "DISTRICT" (Value.str "Unknown"))]
  | .ok _ => [("district", Value.null)]

/-- `DistrictLookup.get_marin_supervisor_district` (lines 137-171): same shape
as the SF resolver, against the Marin County service. -/
def get_marin_supervisor_district (svc : Value → Value → ArcAnswer) (lat lon : Value) : Dict :=
  match svc lat lon with
  | .raise _ => [("district", Value.str "Error")]
  | .ok (some (f :: _)) => [("district", dictGetD f "DISTRICT" (Value.str "Unknown"))]
  | .ok _ => [("district", Value.null)]

/-- One geography level of the census response: if the level key is present
and its list nonempty, `first.get(fieldKey, None)`, else `None`
(lines 202-218 of the source). -/
def levelField (g : Geographies) (level fieldKey : String) : Value :=
  match g.lookup level with
  | some (d :: _) => dictGetD d fieldKey Value.null
  | _ => Value.null

/-- `DistrictLookup.get_census_data` (lines 173-230). -/
def get_census_data (svc : Value → Value → CensusAnswer) (lat lon : Value) : Dict :=
  match svc lat lon with
  | .raise _ =>
      [("puma", Value.str "Error"), ("tract", Value.str "Error"), ("block", Value.str "Error")]
  | .ok none => [("puma", Value.null), ("tract", Value.null), ("block", Value.null)]
  | .ok (some g) =>
      [("puma", levelField g "Public Use Microdata Areas" "PUMA"),
       ("tract", levelField g "Census Tracts" "TRACT"),
       ("block", levelField g "Census Blocks" "BLOCK")]

/-- `DistrictLookup.get_political_districts` (lines 232-264). -/
def get_political_districts (svc : Value → Value → FccAnswer) (lat lon : Value) : Dict :=
  match svc lat lon with
  | .raise _ =>
      [("congressional", Value.str "Error"), ("assembly", Value.str "Error"),
       ("senate", Value.str "Error")]
  | .ok (some (r :: _)) =>
      [("congressional", dictGetD r "congress_district" Value.null),
       ("assembly", dictGetD r "state_lower_district" Value.null),
       ("senate", dictGetD r "state_upper_district" Value.null)]
  | .ok _ =>
      [("congressional", Value.null), ("assembly", Value.null), ("senate", Value.null)]

/-- The lowercased city names whose records trigger the Marin County lookup
(line 318 of the source). -/
def marin_cities : List String :=
  ["san rafael", "novato", "mill valley", "tiburon", "sausalito", "corte madera",
   "larkspur", "fairfax", "san anselmo", "ross", "kentfield", "belvedere"]

/-- One row of the dataset: the three consumed address columns and the
columns added by `load_data` (plus the two supervisor columns that
`process_records` tries to write on the fly). -/
structure Record where
  personAddress : Value
  personCity : Value
  personZip : Value
  latitude : Value
  longitude : Value
  geocodedAddress : Value
  sfSupervisorialDistrict : Value
  sfSupervisor : Value
  marinSupervisorDistrict : Value
  marinSupervisor : Value
  censusPUMA : Value
  censusTract : Value
  censusBlock : Value
  congressionalDistrict : Value
  caAssemblyDistrict : Value
  caSenateDistrict : Value
  geocodingStatus : Value
  lastUpdated : Value
  deriving DecidableEq, Repr

/-- A fresh row: every column `None`, as `load_data` initialises the added
columns. -/
def Record.empty : Record :=
  ⟨Value.null, Value.null, Value.null, Value.null, Value.null, Value.null,
   Value.null, Value.null, Value.null, Value.null, Value.null, Value.null,
   Value.null, Value.null, Value.null, Value.null, Value.null, Value.null⟩

/-- Result of one district-resolution step of `process_records`: the row
after the assignments that executed, the calls made, and `some msg` when a
dict access raised (the exception propagates to the per-record handler). -/
structure StageOut where
  row : Record
  calls : List CallEvent
  err : Option String
  deriving DecidableEq, Repr

/-- Lines 311-315: if `'san francisco' in str(city).lower()`, call the SF
resolver, assign `SF_Supervisorial_District` from `sf_district['district']`,
then assign `SF_Supervisor` from `sf_district['supervisor']` — the second
access raises `KeyError` because the resolver only returns `district`. -/
def sfStage (w : World) (cl : String) (lat lon : Value) (r : Record) : StageOut :=
  if strContains cl "san francisco" then
    let sf_district := get_sf_supervisorial_district w.sf lat lon
    match pydictGet sf_district "district" with
    | .error e => ⟨r, [CallEvent.sfDistrict lat lon], some e⟩
    | .ok v =>
      match pydictGet sf_district "supervisor" with
      | .error e =>
          ⟨{ r with sfSupervisorialDistrict := v }, [CallEvent.sfDistrict lat lon], some e⟩
      | .ok v2 =>
          ⟨{ r with sfSupervisorialDistrict := v, sfSupervisor := v2 },
           [CallEvent.sfDistrict lat lon], none⟩
  else ⟨r, [], none⟩

/-- Lines 317-321: if any Marin city name occurs in `str(city).lower()`,
call the Marin resolver and assign the two fields (the `supervisor` access
raises `KeyError`, as for SF). -/
def marinStage (w : World) (cl : String) (lat lon : Value) (r : Record) : StageOut :=
  if marin_cities.any (fun mc => strContains cl mc) then
    let marin_district := get_marin_supervisor_district w.marin lat lon
    match pydictGet marin_district "district" with
    | .error e => ⟨r, [CallEvent.marinDistrict lat lon], some e⟩
    | .ok v =>
      match pydictGet marin_district "supervisor" with
      | .error e =>
          ⟨{ r with marinSupervisorDistrict := v }, [CallEvent.marinDistrict lat lon], some e⟩
      | .ok v2 =>
          ⟨{ r with marinSupervisorDistrict := v, marinSupervisor := v2 },
           [CallEvent.marinDistrict lat lon], none⟩
  else ⟨r, [], none⟩

/-- Lines 323-327: unconditional census lookup; assign the three fields in
source order. -/
def censusStage (w : World) (lat lon : Value) (r : Record) : StageOut :=
  let census_data := get_census_data w.census lat lon
  match pydictGet census_data "puma" with
  | .error e => ⟨r, [CallEvent.census lat lon], some e⟩
  | .ok p =>
    match pydictGet census_data "tract" with
    | .error e => ⟨{ r with censusPUMA := p }, [CallEvent.census lat lon], some e⟩
    | .ok t =>
      match pydictGet census_data "block" with
      | .error e =>
          ⟨{ r with censusPUMA := p, censusTract := t }, [CallEvent.census lat lon], some e⟩
      | .ok b =>
          ⟨{ r with censusPUMA := p, censusTract := t, censusBlock := b },
           [CallEvent.census lat lon], none⟩

/-- Lines 329-333: unconditional political-districts lookup; assign the
three fields in source order. -/
def politicalStage (w : World) (lat lon : Value) (r : Record) : StageOut :=
  let political_districts := get_political_districts w.political lat lon
  match pydictGet political_districts "congressional" with
  | .error e => ⟨r, [CallEvent.political lat lon], some e⟩
  | .ok c =>
    match pydictGet political_districts "assembly" with
    | .error e => ⟨{ r with congressionalDistrict := c }, [CallEvent.political lat lon], some e⟩
    | .ok a =>
      match pydictGet political_districts "senate" with
      | .error e =>
          ⟨{ r with congressionalDistrict := c, caAssemblyDistrict := a },
           [CallEvent.political lat lon], some e⟩
      | .ok s =>
          ⟨{ r with congressionalDistrict := c, caAssemblyDistrict := a, caSenateDistrict := s },
           [CallEvent.political lat lon], none⟩

/-- How one iteration of the loop body of `process_records` ended:
`done` — reached the `Last_Updated` stamp of line 336;
`skipped` — an early `continue` (missing address data, or failed geocode);
`raised msg` — an exception propagated to the per-record handler. -/
inductive BodyOutcome where
  | done : BodyOutcome
  | skipped : BodyOutcome
  | raised : String → BodyOutcome
  deriving DecidableEq, Repr

/-- Result of the loop body for one record: the row after the assignments
that executed, the value of the loop-local `city` after the iteration, the
external calls made, and how the body ended. -/
structure BodyOut where
  row : Record
  cityVar : Option Value
  calls : List CallEvent
  outcome : BodyOutcome
  deriving DecidableEq, Repr

/-- Lines 311-336: the district-resolution stages and the timestamp stamp,
entered once a coordinate is available.  `cityVar` is the current value of
the loop-local `city` (`none` models the unbound local, whose very first
read on line 312 raises `UnboundLocalError`). -/
def districtStage (w : World) (cityVar : Option Value) (lat lon : Value) (r : Record)
    (calls0 : List CallEvent) : BodyOut :=
  match cityVar with
  | none => ⟨r, none, calls0, BodyOutcome.raised unbound_city_msg⟩
  | some city =>
    let cl := pyLower (pyStr city)
    let s1 := sfStage w cl lat lon r
    match s1.err with
    | some e => ⟨s1.row, some city, calls0 ++ s1.calls, BodyOutcome.raised e⟩
    | none =>
      let s2 := marinStage w cl lat lon s1.row
      match s2.err with
      | some e => ⟨s2.row, some city, calls0 ++ s1.calls ++ s2.calls, BodyOutcome.raised e⟩
      | none =>
        let s3 := censusStage w lat lon s2.row
        match s3.err with
        | some e =>
            ⟨s3.row, some city, calls0 ++ s1.calls ++ s2.calls ++ s3.calls,
             BodyOutcome.raised e⟩
        | none =>
          let s4 := politicalStage w lat lon s3.row
          match s4.err with
          | some e =>
              ⟨s4.row, some city, calls0 ++ s1.calls ++ s2.calls ++ s3.calls ++ s4.calls,
               BodyOutcome.raised e⟩
          | none =>
              ⟨{ s4.row with lastUpdated := Value.str w.now }, some city,
               calls0 ++ s1.calls ++ s2.calls ++ s3.calls ++ s4.calls, BodyOutcome.done⟩

/-- Lines 281-336, the body of the per-record `try`: skip geocoding when both
coordinates are present, else require the three address components, geocode,
and on success store the coordinate and proceed to the district stages. -/
def process_record_body (w : World) (cv : Option Value) (r : Record) : BodyOut :=
  if notna r.latitude && notna r.longitude then
    districtStage w cv r.latitude r.longitude r []
  else
    let address := r.personAddress
    let city := r.personCity
    let zip_code := r.personZip
    if !(address.truthy && city.truthy && zip_code.truthy) then
      ⟨{ r with geocodingStatus := Value.str "Missing Address Data" }, some city, [],
       BodyOutcome.skipped⟩
    else
      let geocode_result := geocode_address w.geocode address city zip_code
      let calls := [CallEvent.geocode (geocode_query address city zip_code)]
      if dictGetD geocode_result "status" Value.null == Value.str "Success" then
        let la := dictGetD geocode_result "latitude" Value.null
        let lo := dictGetD geocode_result "longitude" Value.null
        let r2 := { r with
          latitude := la
          longitude := lo
          geocodedAddress := dictGetD geocode_result "formatted_address" Value.null
          geocodingStatus := Value.str "Success" }
        districtStage w (some city) la lo r2 calls
      else
        ⟨{ r with geocodingStatus := dictGetD geocode_result "status" Value.null }, some city,
         calls, BodyOutcome.skipped⟩

/-- Result of one full iteration (body plus the per-record handler):
`completed` is true exactly when the body reached the `Last_Updated` stamp. -/
structure StepOut where
  row : Record
  cityVar : Option Value
  completed : Bool
  calls : List CallEvent
  deriving DecidableEq, Repr

/-- One iteration of `process_records` including the per-record
`except Exception` handler (lines 345-348): a raised exception is caught
and recorded as `Processing Error: <message>`, and the loop continues. -/
def process_record (w : World) (cv : Option Value) (r : Record) : StepOut :=
  let b := process_record_body w cv r
  match b.outcome with
  | BodyOutcome.done => ⟨b.row, b.cityVar, true, b.calls⟩
  | BodyOutcome.skipped => ⟨b.row, b.cityVar, false, b.calls⟩
  | BodyOutcome.raised e =>
      ⟨{ b.row with geocodingStatus := Value.str ("Processing Error: " ++ e) },
       b.cityVar, false, b.calls⟩

/-- Result of a full run of `process_records`: the rows in order, the count
of fully processed records, the number of checkpoint saves triggered, and
the per-record call traces. -/
structure RunOut where
  records : List Record
  processed : Nat
  saves : Nat
  perRecordCalls : List (List CallEvent)
  deriving DecidableEq, Repr

/-- The loop of `process_records` (lines 277-348), threading the loop-local
`city`, the `processed` counter, and the checkpoint saves (lines 338-343:
`processed += 1; if processed % 10 == 0: self.save_progress()`, reached only
by iterations that completed the body). -/
def process_records_aux (w : World) (cv : Option Value) (processed saves : Nat) :
    List Record → RunOut
  | [] => ⟨[], processed, saves, []⟩
  | r :: rs =>
    let s := process_record w cv r
    let processed2 := if s.completed then processed + 1 else processed
    let saves2 := if s.completed && processed2 % 10 == 0 then saves + 1 else saves
    let rest := process_records_aux w s.cityVar processed2 saves2 rs
    ⟨s.row :: rest.records, rest.processed, rest.saves, s.calls :: rest.perRecordCalls⟩

/-- `DistrictLookup.process_records`: iterate all records from a fresh loop
state (no `city` assigned yet, zero processed, zero saves). -/
def process_records (w : World) (rs : List Record) : RunOut :=
  process_records_aux w none 0 0 rs

/-- A mocked world: every service answers successfully; geocoding always
finds the coordinate `(1, 2)`. -/
def mockWorld : World :=
  ⟨fun _ => GeoAnswer.found 1 2 "1 Main St, Oakland, CA",
   fun _ _ => ArcAnswer.ok (some [[("DISTRICT", Value.num 3)]]),
   fun _ _ => ArcAnswer.ok none,
   fun _ _ => CensusAnswer.ok (some []),
   fun _ _ => FccAnswer.ok (some [[("congress_district", Value.str "12")]]),
   "2026-01-01 00:00:00"⟩

/-- The mocked world of the end-to-end scenario: geocoder returns
`(37.7793, -122.4193, "City Hall, SF, CA")`, the SF resolver returns
district 6, and the census / political services return fixed codes. -/
def sfWorld : World :=
  ⟨fun _ => GeoAnswer.found (mkRat 377793 10000) (mkRat (-1224193) 10000) "City Hall, SF, CA",
   fun _ _ => ArcAnswer.ok (some [[("DISTRICT", Value.num 6)]]),
   fun _ _ => ArcAnswer.ok none,
   fun _ _ => CensusAnswer.ok (some [("Public Use Microdata Areas", [[("PUMA", Value.str "07507")]]),
     ("Census Tracts", [[("TRACT", Value.str "016100")]]),
     ("Census Blocks", [[("BLOCK", Value.str "1000")]])]),
   fun _ _ => FccAnswer.ok (some [[("congress_district", Value.str "11"),
     ("state_lower_district", Value.str "17"), ("state_upper_district", Value.str "11")]]),
   "2026-10-12 09:00:00"⟩

/-- Like `mockWorld`, but the geocoding service finds no match. -/
def notFoundWorld : World :=
  ⟨fun _ => GeoAnswer.notFound,
   fun _ _ => ArcAnswer.ok (some [[("DISTRICT", Value.num 3)]]),
   fun _ _ => ArcAnswer.ok none,
   fun _ _ => CensusAnswer.ok (some []),
   fun _ _ => FccAnswer.ok (some [[("congress_district", Value.str "12")]]),
   "2026-01-01 00:00:00"⟩

/-- The input row of the end-to-end scenario. -/
def rSF : Record := { Record.empty with
  personAddress := Value.str "1 Dr Carlton B Goodlett Pl"
  personCity := Value.str "San Francisco"
  personZip := Value.str "94102" }

/-- A complete Oakland row (no SF / Marin lookup, so its processing
completes). -/
def rOak : Record := { Record.empty with
  personAddress := Value.str "1 Main St"
  personCity := Value.str "Oakland"
  personZip := Value.str "94601" }

/-- A row that already carries a coordinate at pipeline start, with its own
city column reading `San Francisco`. -/
def rCoords : Record := { Record.empty with
  personCity := Value.str "San Francisco"
  latitude := Value.num 37
  longitude := Value.num (-122) }

/-- An Oakland row processed first in the stale-city scenario. -/
def rOakFirst : Record := { Record.empty with
  personAddress := Value.str "100 Broadway"
  personCity := Value.str "Oakland"
  personZip := Value.str "94607" }

/-- A row with a pre-existing coordinate whose own city is `SAN FRANCISCO`,
processed after `rOakFirst`. -/
def rSF2 : Record := { Record.empty with
  personCity := Value.str "SAN FRANCISCO"
  latitude := Value.num 37
  longitude := Value.num (-122) }


/-- A district service answering with a well-formed empty feature list. -/
def emptyArcSvc : Value → Value → ArcAnswer := fun _ _ => ArcAnswer.ok (some [])

/-- A census service whose call raises. -/
def raiseCensusSvc : Value → Value → CensusAnswer := fun _ _ => CensusAnswer.raise "boom"

/-- A political service answering with a well-formed empty result list. -/
def emptyFccSvc : Value → Value → FccAnswer := fun _ _ => FccAnswer.ok (some [])

/-- A row that already carries a coordinate, in a run where no earlier
record assigned the loop-local `city`. -/
def rSkipCoords : Record := { Record.empty with
  latitude := Value.num 1
  longitude := Value.num 2 }

/-- The output row produced for `rOak` under `mockWorld`. -/
def rOakOut : Record := { rOak with
  latitude := Value.rat 1
  longitude := Value.rat 2
  geocodedAddress := Value.str "1 Main St, Oakland, CA"
  congressionalDistrict := Value.str "12"
  geocodingStatus := Value.str "Success"
  lastUpdated := Value.str "2026-01-01 00:00:00" }

/-- A string with a prefix that does not begin the target string is not the
target string. -/
theorem append_ne_of_not_isPre (a b t : String) (h : a.data.isPrefixOf t.data = false) :
    a ++ b ≠ t := by
  intro he
  have hd : a.data ++ b.data = t.data := congrArg String.data he
  have hp : a.data <+: t.data := ⟨b.data, hd⟩
  rw [← List.isPrefixOf_iff_prefix] at hp
  rw [h] at hp
  exact Bool.false_ne_true hp

/-- A `Processing Error: ...` status is never the `Success` status. -/
theorem processing_error_ne_success (e : String) : ("Processing Error: " ++ e) ≠ "Success" :=
  append_ne_of_not_isPre _ _ _ (by decide)

/-- The status stored by `geocode_address` is `statusStr` of the service
outcome. -/
theorem geocode_address_status (svc : String → GeoAnswer) (a c z : Value) :
    dictGetD (geocode_address svc a c z) "status" Value.null
      = Value.str (svc (geocode_query a c z)).statusStr := by
  cases h : svc (geocode_query a c z) <;>
    simp [geocode_address, h, dictGetD, GeoAnswer.statusStr, List.lookup]

/-- On a service match, `geocode_address` returns the four-field dict of the
source. -/
theorem geocode_address_found (svc : String → GeoAnswer) (a c z : Value) (la lo : Rat)
    (ad : String) (h : svc (geocode_query a c z) = GeoAnswer.found la lo ad) :
    geocode_address svc a c z =
      [("latitude", Value.rat la), ("longitude", Value.rat lo),
       ("formatted_address", Value.str ad), ("status", Value.str "Success")] := by
  simp [geocode_address, h]

/-- `statusStr` equals `Success` only for a service match. -/
theorem statusStr_eq_success (g : GeoAnswer) (h : g.statusStr = "Success") :
    ∃ la lo ad, g = GeoAnswer.found la lo ad := by
  cases g with
  | found la lo ad => exact ⟨la, lo, ad, rfl⟩
  | notFound => simp [GeoAnswer.statusStr] at h
  | geocoderErr m =>
      exact absurd h (append_ne_of_not_isPre "Error: " m "Success" (by decide))
  | otherErr m =>
      exact absurd h (append_ne_of_not_isPre "Unexpected Error: " m "Success" (by decide))

/-- `notna` is truth of non-nullity. -/
theorem notna_eq_true (v : Value) (h : notna v = true) : v ≠ Value.null := by
  simpa [notna] using h

/-- The SF stage writes only its two supervisor fields. -/
theorem sfStage_preserves (w : World) (cl : String) (lat lon : Value) (r : Record) :
    (sfStage w cl lat lon r).row.latitude = r.latitude
    ∧ (sfStage w cl lat lon r).row.longitude = r.longitude
    ∧ (sfStage w cl lat lon r).row.geocodingStatus = r.geocodingStatus := by
  refine ⟨?_, ?_, ?_⟩ <;>
    (simp only [sfStage]; repeat first | rfl | split)

/-- The Marin stage writes only its two supervisor fields. -/
theorem marinStage_preserves (w : World) (cl : String) (lat lon : Value) (r : Record) :
    (marinStage w cl lat lon r).row.latitude = r.latitude
    ∧ (marinStage w cl lat lon r).row.longitude = r.longitude
    ∧ (marinStage w cl lat lon r).row.geocodingStatus = r.geocodingStatus := by
  refine ⟨?_, ?_, ?_⟩ <;>
    (simp only [marinStage]; repeat first | rfl | split)

/-- The census stage writes only its three census fields. -/
theorem censusStage_preserves (w : World) (lat lon : Value) (r : Record) :
    (censusStage w lat lon r).row.latitude = r.latitude
    ∧ (censusStage w lat lon r).row.longitude = r.longitude
    ∧ (censusStage w lat lon r).row.geocodingStatus = r.geocodingStatus := by
  refine ⟨?_, ?_, ?_⟩ <;>
    (simp only [censusStage]; repeat first | rfl | split)

/-- The political stage writes only its three district fields. -/
theorem politicalStage_preserves (w : World) (lat lon : Value) (r : Record) :
    (politicalStage w lat lon r).row.latitude = r.latitude
    ∧ (politicalStage w lat lon r).row.longitude = r.longitude
    ∧ (politicalStage w lat lon r).row.geocodingStatus = r.geocodingStatus := by
  refine ⟨?_, ?_, ?_⟩ <;>
    (simp only [politicalStage]; repeat first | rfl | split)

/-- The SF stage records either no call or exactly one SF-resolver call. -/
theorem sfStage_calls (w : World) (cl : String) (lat lon : Value) (r : Record) :
    (sfStage w cl lat lon r).calls = []
    ∨ (sfStage w cl lat lon r).calls = [CallEvent.sfDistrict lat lon] := by
  simp only [sfStage]
  repeat first | exact Or.inl rfl | exact Or.inr rfl | split

/-- The Marin stage records either no call or exactly one Marin-resolver call. -/
theorem marinStage_calls (w : World) (cl : String) (lat lon : Value) (r : Record) :
    (marinStage w cl lat lon r).calls = []
    ∨ (marinStage w cl lat lon r).calls = [CallEvent.marinDistrict lat lon] := by
  simp only [marinStage]
  repeat first | exact Or.inl rfl | exact Or.inr rfl | split

/-- The census stage records exactly one census call. -/
theorem censusStage_calls (w : World) (lat lon : Value) (r : Record) :
    (censusStage w lat lon r).calls = [CallEvent.census lat lon] := by
  simp only [censusStage]
  repeat first | rfl | split

/-- The political stage records exactly one political call. -/
theorem politicalStage_calls (w : World) (lat lon : Value) (r : Record) :
    (politicalStage w lat lon r).calls = [CallEvent.political lat lon] := by
  simp only [politicalStage]
  repeat first | rfl | split

/-- The district stages never record a geocoding call (SF branch). -/
theorem sfStage_no_geocode (w : World) (cl : String) (lat lon : Value) (r : Record)
    (q : String) : CallEvent.geocode q ∉ (sfStage w cl lat lon r).calls := by
  rcases sfStage_calls w cl lat lon r with h | h <;> simp [h]

/-- The district stages never record a geocoding call (Marin branch). -/
theorem marinStage_no_geocode (w : World) (cl : String) (lat lon : Value) (r : Record)
    (q : String) : CallEvent.geocode q ∉ (marinStage w cl lat lon r).calls := by
  rcases marinStage_calls w cl lat lon r with h | h <;> simp [h]

/-- The district stages never record a geocoding call (census). -/
theorem censusStage_no_geocode (w : World) (lat lon : Value) (r : Record)
    (q : String) : CallEvent.geocode q ∉ (censusStage w lat lon r).calls := by
  simp [censusStage_calls w lat lon r]

/-- The district stages never record a geocoding call (political). -/
theorem politicalStage_no_geocode (w : World) (lat lon : Value) (r : Record)
    (q : String) : CallEvent.geocode q ∉ (politicalStage w lat lon r).calls := by
  simp [politicalStage_calls w lat lon r]

/-- The district-resolution stages leave the coordinate and status columns
unchanged. -/
theorem districtStage_preserves (w : World) (cv : Option Value) (lat lon : Value)
    (r : Record) (c0 : List CallEvent) :
    (districtStage w cv lat lon r c0).row.latitude = r.latitude
    ∧ (districtStage w cv lat lon r c0).row.longitude = r.longitude
    ∧ (districtStage w cv lat lon r c0).row.geocodingStatus = r.geocodingStatus := by
  cases cv with
  | none => exact ⟨rfl, rfl, rfl⟩
  | some city =>
    refine ⟨?_, ?_, ?_⟩ <;>
      (simp only [districtStage]
       repeat' split
       all_goals simp [sfStage_preserves, marinStage_preserves, censusStage_preserves,
         politicalStage_preserves])

/-- A district-stage run that ended `done` stamped `Last_Updated` with the
current wall-clock string. -/
theorem districtStage_done_stamp (w : World) (cv : Option Value) (lat lon : Value)
    (r : Record) (c0 : List CallEvent) (row : Record) (cv2 : Option Value)
    (calls : List CallEvent)
    (h : districtStage w cv lat lon r c0 = ⟨row, cv2, calls, BodyOutcome.done⟩) :
    row.lastUpdated = Value.str w.now := by
  cases cv with
  | none => simp [districtStage] at h
  | some city =>
    simp only [districtStage] at h
    repeat' split at h
    all_goals injection h with h1 h2 h3 h4
    all_goals try (simp at h4)
    all_goals (subst h1; rfl)

/-- A geocoding call recorded by the district stages was already in the
incoming trace. -/
theorem districtStage_calls_geocode (w : World) (cv : Option Value) (lat lon : Value)
    (r : Record) (c0 : List CallEvent) (q : String)
    (h : CallEvent.geocode q ∈ (districtStage w cv lat lon r c0).calls) :
    CallEvent.geocode q ∈ c0 := by
  cases cv with
  | none => simpa [districtStage] using h
  | some city =>
    simp only [districtStage] at h
    repeat' split at h
    all_goals
      simpa [List.mem_append, sfStage_no_geocode, marinStage_no_geocode,
        censusStage_no_geocode, politicalStage_no_geocode] using h

/-- `get("latitude")` on the dict returned for a geocoder match. -/
theorem dict4_latitude (la lo : Rat) (ad : String) :
    dictGetD [("latitude", Value.rat la), ("longitude", Value.rat lo),
      ("formatted_address", Value.str ad), ("status", Value.str "Success")] "latitude"
      Value.null = Value.rat la := rfl

/-- `get("longitude")` on the dict returned for a geocoder match. -/
theorem dict4_longitude (la lo : Rat) (ad : String) :
    dictGetD [("latitude", Value.rat la), ("longitude", Value.rat lo),
      ("formatted_address", Value.str ad), ("status", Value.str "Success")] "longitude"
      Value.null = Value.rat lo := rfl

/-- `get("formatted_address")` on the dict returned for a geocoder match. -/
theorem dict4_formatted (la lo : Rat) (ad : String) :
    dictGetD [("latitude", Value.rat la), ("longitude", Value.rat lo),
      ("formatted_address", Value.str ad), ("status", Value.str "Success")] "formatted_address"
      Value.null = Value.str ad := rfl

/-- `get("status")` on the dict returned for a geocoder match. -/
theorem dict4_status (la lo : Rat) (ad : String) :
    dictGetD [("latitude", Value.rat la), ("longitude", Value.rat lo),
      ("formatted_address", Value.str ad), ("status", Value.str "Success")] "status"
      Value.null = Value.str "Success" := rfl

/-- If the loop body left a `Success` status on the row, the row carries a
non-null coordinate. -/
theorem body_success_coords (w : World) (cv : Option Value) (r : Record)
    (hs : (process_record_body w cv r).row.geocodingStatus = Value.str "Success") :
    (process_record_body w cv r).row.latitude ≠ Value.null
    ∧ (process_record_body w cv r).row.longitude ≠ Value.null := by
  by_cases hc : (notna r.latitude && notna r.longitude) = true
  · have hrw : process_record_body w cv r = districtStage w cv r.latitude r.longitude r [] := by
      simp [process_record_body, hc]
    obtain ⟨hla, hlo, hst⟩ := districtStage_preserves w cv r.latitude r.longitude r []
    rw [hrw, hla, hlo]
    rw [Bool.and_eq_true] at hc
    exact ⟨notna_eq_true _ hc.1, notna_eq_true _ hc.2⟩
  · have hcf : (notna r.latitude && notna r.longitude) = false := by simpa using hc
    by_cases hm : (!(r.personAddress.truthy && r.personCity.truthy && r.personZip.truthy)) = true
    · have hrw : process_record_body w cv r =
          ⟨{ r with geocodingStatus := Value.str "Missing Address Data" }, some r.personCity,
           [], BodyOutcome.skipped⟩ := by
        simp [process_record_body, hcf, hm]
      rw [hrw] at hs
      have h2 : Value.str "Missing Address Data" = Value.str "Success" := hs
      exact absurd h2 (by decide)
    · have hmf : (!(r.personAddress.truthy && r.personCity.truthy && r.personZip.truthy))
          = false := by simpa using hm
      by_cases hsucc : (dictGetD (geocode_address w.geocode r.personAddress r.personCity
          r.personZip) "status" Value.null == Value.str "Success") = true
      · have hsstr : (w.geocode (geocode_query r.personAddress r.personCity
            r.personZip)).statusStr = "Success" := by
          have h2 := hsucc
          rw [geocode_address_status] at h2
          simpa using h2
        obtain ⟨la, lo, ad, hfound⟩ := statusStr_eq_success _ hsstr
        have hrw : process_record_body w cv r =
            districtStage w (some r.personCity) (Value.rat la) (Value.rat lo)
              ({ r with
                latitude := Value.rat la
                longitude := Value.rat lo
                geocodedAddress := Value.str ad
                geocodingStatus := Value.str "Success" })
              [CallEvent.geocode (geocode_query r.personAddress r.personCity r.personZip)] := by
          simp only [process_record_body, hcf, Bool.false_eq_true, if_false, hmf, if_true,
            geocode_address_found w.geocode _ _ _ la lo ad hfound, dict4_latitude,
            dict4_longitude, dict4_formatted, hsucc]
          simp [dict4_status]
        rw [hrw]
        obtain ⟨hla, hlo, hst⟩ := districtStage_preserves w (some r.personCity)
          (Value.rat la) (Value.rat lo) _ _
        rw [hla, hlo]
        exact ⟨by simp, by simp⟩
      · have hsuccf : (dictGetD (geocode_address w.geocode r.personAddress r.personCity
            r.personZip) "status" Value.null == Value.str "Success") = false := by
          simpa using hsucc
        have hrw : process_record_body w cv r =
            ⟨{ r with geocodingStatus := dictGetD (geocode_address w.geocode r.personAddress
                r.personCity r.personZip) "status" Value.null }, some r.personCity,
             [CallEvent.geocode (geocode_query r.personAddress r.personCity r.personZip)],
             BodyOutcome.skipped⟩ := by
          simp [process_record_body, hcf, hmf, hsuccf]
        rw [hrw] at hs
        have hs2 : dictGetD (geocode_address w.geocode r.personAddress r.personCity
            r.personZip) "status" Value.null = Value.str "Success" := hs
        rw [hs2] at hsuccf
        simp at hsuccf

/-- A loop body that ended `done` stamped `Last_Updated` with the current
wall-clock string. -/
theorem body_done_stamp (w : World) (cv : Option Value) (r : Record) (row : Record)
    (cv2 : Option Value) (calls : List CallEvent)
    (h : process_record_body w cv r = ⟨row, cv2, calls, BodyOutcome.done⟩) :
    row.lastUpdated = Value.str w.now := by
  simp only [process_record_body] at h
  split at h
  · exact districtStage_done_stamp _ _ _ _ _ _ _ _ _ h
  · split at h
    · injection h with h1 h2 h3 h4
      simp at h4
    · split at h
      · exact districtStage_done_stamp _ _ _ _ _ _ _ _ _ h
      · injection h with h1 h2 h3 h4
        simp at h4

/-- An iteration that completed stamped `Last_Updated` with the current
wall-clock string. -/
theorem process_record_completed_stamp (w : World) (cv : Option Value) (r : Record)
    (h : (process_record w cv r).completed = true) :
    (process_record w cv r).row.lastUpdated = Value.str w.now := by
  rcases hb : process_record_body w cv r with ⟨row, cv2, calls, outc⟩
  cases outc with
  | done =>
      have hr : process_record w cv r = ⟨row, cv2, true, calls⟩ := by
        simp [process_record, hb]
      rw [hr]
      exact body_done_stamp w cv r row cv2 calls hb
  | skipped =>
      have hr : process_record w cv r = ⟨row, cv2, false, calls⟩ := by
        simp [process_record, hb]
      rw [hr] at h
      simp at h
  | raised e =>
      have hr : process_record w cv r =
          ⟨{ row with geocodingStatus := Value.str ("Processing Error: " ++ e) },
           cv2, false, calls⟩ := by
        simp [process_record, hb]
      rw [hr] at h
      simp at h

/-- If an iteration left a `Success` status on the row, the row carries a
non-null coordinate. -/
theorem process_record_success_coords (w : World) (cv : Option Value) (r : Record)
    (hs : (process_record w cv r).row.geocodingStatus = Value.str "Success") :
    (process_record w cv r).row.latitude ≠ Value.null
    ∧ (process_record w cv r).row.longitude ≠ Value.null := by
  rcases hb : process_record_body w cv r with ⟨row, cv2, calls, outc⟩
  cases outc with
  | done =>
      have hr : process_record w cv r = ⟨row, cv2, true, calls⟩ := by
        simp [process_record, hb]
      rw [hr] at hs ⊢
      have h2 := body_success_coords w cv r (by rw [hb]; exact hs)
      rw [hb] at h2
      exact h2
  | skipped =>
      have hr : process_record w cv r = ⟨row, cv2, false, calls⟩ := by
        simp [process_record, hb]
      rw [hr] at hs ⊢
      have h2 := body_success_coords w cv r (by rw [hb]; exact hs)
      rw [hb] at h2
      exact h2
  | raised e =>
      have hr : process_record w cv r =
          ⟨{ row with geocodingStatus := Value.str ("Processing Error: " ++ e) },
           cv2, false, calls⟩ := by
        simp [process_record, hb]
      rw [hr] at hs
      have h3 : Value.str ("Processing Error: " ++ e) = Value.str "Success" := hs
      have h4 : ("Processing Error: " ++ e) = "Success" := by injection h3
      exact absurd h4 (processing_error_ne_success e)

/-- A full run returns one output row per input row. -/
theorem process_records_aux_length (w : World) :
    ∀ (rs : List Record) (cv : Option Value) (p s : Nat),
      (process_records_aux w cv p s rs).records.length = rs.length := by
  intro rs
  induction rs with
  | nil => intro cv p s; rfl
  | cons r rs ih => intro cv p s; simp [process_records_aux, ih]

/-- Every output row of a run is the result of `process_record` on some
input row. -/
theorem process_records_aux_mem (w : World) :
    ∀ (rs : List Record) (cv : Option Value) (p s : Nat) (x : Record),
      x ∈ (process_records_aux w cv p s rs).records →
      ∃ cv2 r, r ∈ rs ∧ x = (process_record w cv2 r).row := by
  intro rs
  induction rs with
  | nil => intro cv p s x hx; simp [process_records_aux] at hx
  | cons r rs ih =>
      intro cv p s x hx
      simp only [process_records_aux] at hx
      rcases List.mem_cons.mp hx with h | h
      · exact ⟨cv, r, by simp, h⟩
      · obtain ⟨cv2, r2, hr2, hx2⟩ := ih _ _ _ _ h
        exact ⟨cv2, r2, by simp [hr2], hx2⟩

/-- The running saves counter stays at one save per ten completions. -/
theorem process_records_aux_saves (w : World) :
    ∀ (rs : List Record) (cv : Option Value) (p s : Nat), s = p / 10 →
      (process_records_aux w cv p s rs).saves
        = (process_records_aux w cv p s rs).processed / 10 := by
  intro rs
  induction rs with
  | nil => intro cv p s hs; simpa [process_records_aux] using hs
  | cons r rs ih =>
      intro cv p s hs
      simp only [process_records_aux]
      cases hc : (process_record w cv r).completed with
      | false =>
          simp [hc]
          exact ih _ _ _ hs
      | true =>
          simp [hc]
          by_cases hz : (p + 1) % 10 = 0
          · simp [hz]
            apply ih
            omega
          · simp [hz]
            apply ih
            omega

/-- A geocoding call recorded by the loop body carries exactly the composed
full-address query of the record being processed. -/
theorem body_geocode_query_format (w : World) (cv : Option Value) (r : Record) (q : String)
    (h : CallEvent.geocode q ∈ (process_record_body w cv r).calls) :
    q = geocode_query r.personAddress r.personCity r.personZip := by
  simp only [process_record_body] at h
  split at h
  · have h2 := districtStage_calls_geocode _ _ _ _ _ _ _ h
    simp at h2
  · split at h
    · simp at h
    · split at h
      · have h2 := districtStage_calls_geocode _ _ _ _ _ _ _ h
        simpa using h2
      · simpa using h

/-- The per-record handler does not change the recorded calls. -/
theorem process_record_calls_eq_body (w : World) (cv : Option Value) (r : Record) :
    (process_record w cv r).calls = (process_record_body w cv r).calls := by
  rcases hb : process_record_body w cv r with ⟨row, cv2, calls, outc⟩
  cases outc <;> simp [process_record, hb]

/-- Claim C1 (evaluation at the failing input): for the end-to-end scenario —
row `1 Dr Carlton B Goodlett Pl / San Francisco / 94102`, geocoder returning
`(37.7793, -122.4193, "City Hall, SF, CA")`, SF resolver returning district 6,
census and political services returning fixed codes — the processed row has
`SF_Supervisorial_District = 6` but a `Processing Error` status from the
`KeyError` on the missing `supervisor` key, not `Success`, and its census,
political and `Last_Updated` columns stay null. -/
theorem end_to_end_scenario_eval :
    (process_records sfWorld [rSF]).records.map Record.geocodingStatus
        = [Value.str ("Processing Error: " ++ keyErrorMsg "supervisor")]
    ∧ (process_records sfWorld [rSF]).records.map Record.sfSupervisorialDistrict
        = [Value.num 6]
    ∧ (process_records sfWorld [rSF]).records.map Record.censusPUMA = [Value.null]
    ∧ (process_records sfWorld [rSF]).records.map Record.congressionalDistrict = [Value.null]
    ∧ (process_records sfWorld [rSF]).records.map Record.lastUpdated = [Value.null]
    ∧ Value.str ("Processing Error: " ++ keyErrorMsg "supervisor") ≠ Value.str "Success" := by
  decide

/-- Claim C2 (evaluation at the failing input): a record that already has a
coordinate at pipeline start skips geocoding, but when no earlier record
assigned the loop-local `city`, reading it raises `UnboundLocalError`, so no
downstream lookup (census, political, or any other) executes for that record:
its call trace is empty and its status becomes a `Processing Error`. -/
theorem preexisting_coords_eval :
    (process_records mockWorld [rCoords]).perRecordCalls = [[]]
    ∧ (process_records mockWorld [rCoords]).records.map Record.geocodingStatus
        = [Value.str ("Processing Error: " ++ unbound_city_msg)] := by
  decide

/-- Claim C3 (evaluation at the failing input): the second record has a
stored coordinate and its own city column `SAN FRANCISCO` — which does match
the municipal predicate — yet the municipal resolver is never invoked for it,
because the predicate is evaluated on the stale loop-local `city` of the
previous (Oakland) record: its trace holds only the census and political
calls. -/
theorem stale_city_predicate_eval :
    strContains (pyLower (pyStr rSF2.personCity)) "san francisco" = true
    ∧ (process_records mockWorld [rOakFirst, rSF2]).perRecordCalls =
        [[CallEvent.geocode "100 Broadway, Oakland, CA 94607",
          CallEvent.census (Value.rat 1) (Value.rat 2),
          CallEvent.political (Value.rat 1) (Value.rat 2)],
         [CallEvent.census (Value.num 37) (Value.num (-122)),
          CallEvent.political (Value.num 37) (Value.num (-122))]] := by
  decide

/-- Claim C4: for every district resolver and every coordinate, a well-formed
response with an empty feature/result list yields `None` for each field, a
raised exception yields the string `Error` for each field, and the two
sentinels are distinct values. -/
theorem resolver_empty_vs_error (sf marin : Value → Value → ArcAnswer)
    (cen : Value → Value → CensusAnswer) (pol : Value → Value → FccAnswer)
    (lat lon : Value) :
    (sf lat lon = ArcAnswer.ok (some []) →
      get_sf_supervisorial_district sf lat lon = [("district", Value.null)])
    ∧ (∀ m, sf lat lon = ArcAnswer.raise m →
      get_sf_supervisorial_district sf lat lon = [("district", Value.str "Error")])
    ∧ (marin lat lon = ArcAnswer.ok (some []) →
      get_marin_supervisor_district marin lat lon = [("district", Value.null)])
    ∧ (∀ m, marin lat lon = ArcAnswer.raise m →
      get_marin_supervisor_district marin lat lon = [("district", Value.str "Error")])
    ∧ (cen lat lon = CensusAnswer.ok (some [("Public Use Microdata Areas", []),
        ("Census Tracts", []), ("Census Blocks", [])]) →
      get_census_data cen lat lon =
        [("puma", Value.null), ("tract", Value.null), ("block", Value.null)])
    ∧ (∀ m, cen lat lon = CensusAnswer.raise m →
      get_census_data cen lat lon =
        [("puma", Value.str "Error"), ("tract", Value.str "Error"),
         ("block", Value.str "Error")])
    ∧ (pol lat lon = FccAnswer.ok (some []) →
      get_political_districts pol lat lon =
        [("congressional", Value.null), ("assembly", Value.null), ("senate", Value.null)])
    ∧ (∀ m, pol lat lon = FccAnswer.raise m →
      get_political_districts pol lat lon =
        [("congressional", Value.str "Error"), ("assembly", Value.str "Error"),
         ("senate", Value.str "Error")])
    ∧ Value.null ≠ Value.str "Error" := by
  refine ⟨?_, ?_, ?_, ?_, ?_, ?_, ?_, ?_, by decide⟩ <;>
    first
      | (intro h
         simp [get_sf_supervisorial_district, get_marin_supervisor_district,
           get_census_data, get_political_districts, h, levelField, List.lookup])
      | (intro m h
         simp [get_sf_supervisorial_district, get_marin_supervisor_district,
           get_census_data, get_political_districts, h])

/-- Witness for claim C4 at concrete services and a concrete coordinate. -/
theorem resolver_empty_vs_error_witness :
    get_sf_supervisorial_district emptyArcSvc (Value.num 0) (Value.num 0)
        = [("district", Value.null)]
    ∧ get_census_data raiseCensusSvc (Value.num 0) (Value.num 0)
        = [("puma", Value.str "Error"), ("tract", Value.str "Error"),
           ("block", Value.str "Error")] :=
  ⟨(resolver_empty_vs_error emptyArcSvc emptyArcSvc raiseCensusSvc emptyFccSvc
      (Value.num 0) (Value.num 0)).1 rfl,
   (resolver_empty_vs_error emptyArcSvc emptyArcSvc raiseCensusSvc emptyFccSvc
      (Value.num 0) (Value.num 0)).2.2.2.2.2.1 "boom" rfl⟩

/-- Claim C5: the checkpoint-save count of a run is exactly one save per ten
completed records (so a run with exactly 25 completions triggers exactly 2
saves), where a completed iteration is precisely one that reached the
`Last_Updated` stamp. -/
theorem checkpoint_every_ten_completions (w : World) (rs : List Record) :
    (process_records w rs).saves = (process_records w rs).processed / 10
    ∧ ((process_records w rs).processed = 25 → (process_records w rs).saves = 2)
    ∧ ∀ (cv : Option Value) (r : Record), (process_record w cv r).completed = true →
        (process_record w cv r).row.lastUpdated = Value.str w.now := by
  have h1 : (process_records w rs).saves = (process_records w rs).processed / 10 :=
    process_records_aux_saves w rs none 0 0 (by norm_num)
  refine ⟨h1, ?_, ?_⟩
  · intro h25
    rw [h1, h25]
  · intro cv r h
    exact process_record_completed_stamp w cv r h

/-- Witness for claim C5: a 25-record run with 25 completions triggers 2
saves, and a completed single iteration stamped `Last_Updated`. -/
theorem checkpoint_every_ten_completions_witness :
    (process_records mockWorld (List.replicate 25 rOak)).saves = 2
    ∧ (process_record mockWorld none rOak).row.lastUpdated = Value.str mockWorld.now :=
  ⟨(checkpoint_every_ten_completions mockWorld (List.replicate 25 rOak)).2.1 (by decide),
   (checkpoint_every_ten_completions mockWorld [rOak]).2.2 none rOak (by decide)⟩

/-- Claim C6: a record with no stored coordinate and a missing address
component gets status exactly `Missing Address Data`, no other column is
written, the iteration does not complete, and no external call at all — in
particular neither the geocoder nor any district lookup — is made for it. -/
theorem missing_address_short_circuit (w : World) (cv : Option Value) (r : Record)
    (hcoords : r.latitude = Value.null ∨ r.longitude = Value.null)
    (hmiss : r.personAddress.truthy = false ∨ r.personCity.truthy = false
      ∨ r.personZip.truthy = false) :
    process_record w cv r =
      ⟨{ r with geocodingStatus := Value.str "Missing Address Data" },
       some r.personCity, false, []⟩ := by
  have hcf : (notna r.latitude && notna r.longitude) = false := by
    rcases hcoords with h | h <;> simp [notna, h]
  have hm : (!(r.personAddress.truthy && r.personCity.truthy && r.personZip.truthy))
      = true := by
    rcases hmiss with h | h | h <;> simp [h]
  simp [process_record, process_record_body, hcf, hm]

/-- Witness for claim C6 at the all-null record. -/
theorem missing_address_short_circuit_witness :
    process_record mockWorld none Record.empty =
      ⟨{ Record.empty with geocodingStatus := Value.str "Missing Address Data" },
       some Value.null, false, []⟩ :=
  missing_address_short_circuit mockWorld none Record.empty (Or.inl rfl) (Or.inl rfl)

/-- Claim C7: when the geocoder returns anything other than a match, the
returned status string (`Not Found`, `Error: ...`, or `Unexpected Error: ...`)
is stored verbatim in `Geocoding_Status`, no coordinate or formatted-address
column is written, the iteration does not complete, and the only external
call made for the record is the geocoding call — no district lookup runs. -/
theorem geocode_failure_short_circuit (w : World) (cv : Option Value) (r : Record)
    (hcoords : r.latitude = Value.null ∨ r.longitude = Value.null)
    (hall : r.personAddress.truthy = true ∧ r.personCity.truthy = true
      ∧ r.personZip.truthy = true)
    (hfail : ∀ la lo ad, w.geocode (geocode_query r.personAddress r.personCity r.personZip)
      ≠ GeoAnswer.found la lo ad) :
    process_record w cv r =
      ⟨{ r with geocodingStatus := Value.str (w.geocode (geocode_query r.personAddress
          r.personCity r.personZip)).statusStr },
       some r.personCity, false,
       [CallEvent.geocode (geocode_query r.personAddress r.personCity r.personZip)]⟩ := by
  have hcf : (notna r.latitude && notna r.longitude) = false := by
    rcases hcoords with h | h <;> simp [notna, h]
  have hmf : (!(r.personAddress.truthy && r.personCity.truthy && r.personZip.truthy))
      = false := by
    simp [hall.1, hall.2.1, hall.2.2]
  have hne : (w.geocode (geocode_query r.personAddress r.personCity
      r.personZip)).statusStr ≠ "Success" := by
    cases hg : w.geocode (geocode_query r.personAddress r.personCity r.personZip) with
    | found la lo ad => exact absurd hg (hfail la lo ad)
    | notFound => simp [GeoAnswer.statusStr]
    | geocoderErr m =>
        show ("Error: " ++ m) ≠ "Success"
        exact append_ne_of_not_isPre "Error: " m "Success" (by decide)
    | otherErr m =>
        show ("Unexpected Error: " ++ m) ≠ "Success"
        exact append_ne_of_not_isPre "Unexpected Error: " m "Success" (by decide)
  simp [process_record, process_record_body, hcf, hmf, geocode_address_status, hne]

/-- Witness for claim C7: a no-match geocoder answer on a complete address. -/
theorem geocode_failure_short_circuit_witness :
    process_record notFoundWorld none rOak =
      ⟨{ rOak with geocodingStatus := Value.str (notFoundWorld.geocode (geocode_query
          rOak.personAddress rOak.personCity rOak.personZip)).statusStr },
       some rOak.personCity, false,
       [CallEvent.geocode (geocode_query rOak.personAddress rOak.personCity
          rOak.personZip)]⟩ :=
  geocode_failure_short_circuit notFoundWorld none rOak (Or.inl rfl)
    ⟨by decide, by decide, by decide⟩
    (fun la lo ad hh => by simp [notFoundWorld] at hh)

/-- Claim C8: an exception raised inside the processing of one record is
caught at the per-record boundary — the status of that record becomes
`Processing Error: <message>` — and the run still produces one output row
for every input row, so one failing record never aborts the rest. -/
theorem per_record_error_boundary (w : World) (cv : Option Value) (r : Record) (e : String)
    (h : (process_record_body w cv r).outcome = BodyOutcome.raised e) :
    (process_record w cv r).row.geocodingStatus
        = Value.str ("Processing Error: " ++ e)
    ∧ ∀ rs : List Record, (process_records w rs).records.length = rs.length := by
  constructor
  · rcases hb : process_record_body w cv r with ⟨row, cv2, calls, outc⟩
    have h2 : outc = BodyOutcome.raised e := by rw [hb] at h; exact h
    subst h2
    simp [process_record, hb]
  · intro rs
    exact process_records_aux_length w rs none 0 0

/-- Witness for claim C8: the `UnboundLocalError` raised for a record with a
stored coordinate processed first in a run. -/
theorem per_record_error_boundary_witness :
    (process_record mockWorld none rSkipCoords).row.geocodingStatus
        = Value.str ("Processing Error: " ++ unbound_city_msg)
    ∧ ∀ rs : List Record, (process_records mockWorld rs).records.length = rs.length :=
  per_record_error_boundary mockWorld none rSkipCoords unbound_city_msg (by decide)

/-- Claim C9: in every run, every output row whose `Geocoding_Status` holds
`Success` has non-null `Latitude` and `Longitude`. -/
theorem success_status_has_coords (w : World) (rs : List Record) (x : Record)
    (hx : x ∈ (process_records w rs).records)
    (hs : x.geocodingStatus = Value.str "Success") :
    x.latitude ≠ Value.null ∧ x.longitude ≠ Value.null := by
  have hx2 : x ∈ (process_records_aux w none 0 0 rs).records := hx
  obtain ⟨cv2, r, hr, hxe⟩ := process_records_aux_mem w rs none 0 0 x hx2
  subst hxe
  exact process_record_success_coords w cv2 r hs

/-- Witness for claim C9: the successfully geocoded Oakland row. -/
theorem success_status_has_coords_witness :
    rOakOut.latitude ≠ Value.null ∧ rOakOut.longitude ≠ Value.null :=
  success_status_has_coords mockWorld [rOak] rOakOut (by decide) (by decide)

/-- Claim C10 counterexample: in a concrete run, the query actually submitted
to the geocoding service carries a comma between the city and the state, so
it is not the claimed format `{address}, {city} {state} {postal_code}`
instantiated at the same components with the fixed state `CA`. -/
theorem geocode_query_spec_format_cx :
    (process_records mockWorld [rOak]).perRecordCalls =
      [[CallEvent.geocode "1 Main St, Oakland, CA 94601",
        CallEvent.census (Value.rat 1) (Value.rat 2),
        CallEvent.political (Value.rat 1) (Value.rat 2)]]
    ∧ "1 Main St, Oakland, CA 94601" ≠ spec_geocode_query "1 Main St" "Oakland" "CA" "94601" := by
  decide

/-- Claim C10 (amended): every geocoding query submitted for a record is
exactly `{address}, {city}, CA {zip}` — address, comma, city, comma, the
fixed state `CA`, and the postal code (with a comma after the city). -/
theorem geocode_query_submitted_format (w : World) (cv : Option Value) (r : Record)
    (q : String) (h : CallEvent.geocode q ∈ (process_record w cv r).calls) :
    q = pyStr r.personAddress ++ ", " ++ pyStr r.personCity ++ ", CA "
        ++ pyStr r.personZip := by
  rw [process_record_calls_eq_body] at h
  exact body_geocode_query_format w cv r q h

/-- Witness for the amended claim C10 at the Oakland row. -/
theorem geocode_query_submitted_format_witness :
    "1 Main St, Oakland, CA 94601" = pyStr rOak.personAddress ++ ", "
        ++ pyStr rOak.personCity ++ ", CA " ++ pyStr rOak.personZip :=
  geocode_query_submitted_format mockWorld none rOak "1 Main St, Oakland, CA 94601"
    (by decide)
